/-
Verification of the Torus proposal builder's pricing / schedule core
(src/torus_proposal_app.py) against its specification.

Shallow embedding conventions:
  * Python floats are modelled as exact rationals (ℚ); the formulas under
    verification are plain field arithmetic and the claims are stated in
    exact decimal arithmetic.
  * Python ints are modelled as ℤ.
  * Mode fields that the source keeps as strings ("Monthly Fixed",
    "One-time", "Yes", ...) stay strings, compared against the same
    literals as the source.
  * `additional_services` entries (Python dicts {name, price}) are
    modelled as (String × ℚ) pairs.
  * Purely presentational outputs of `build_totals` (`base_explain`,
    `addons_lines`, `compensation_explain`) are not part of any claim and
    are omitted from the embedded result record; every numeric field of
    the returned dict is embedded.
-/
import Mathlib

namespace Torus

/-- The check-mark constant `CHECK = "✓"` used in schedule cells. -/
def CHECK : String := "✓"

/-- Embedding of the `ProposalInputs` dataclass (all fields, source names;
`rate_per_sqft` etc. keep the source spelling). -/
structure ProposalInputs where
  client : String
  facility_name : String
  service_begin_date : String
  service_end_date : String
  service_addresses : List String
  days_per_week : ℤ
  cleaning_times : String
  net_terms : ℤ
  sales_tax_percent : ℚ
  space_type : String
  square_footage : ℤ
  floor_types : String
  num_offices : ℤ
  num_conference_rooms : ℤ
  num_break_rooms : ℤ
  num_bathrooms : ℤ
  num_kitchens : ℤ
  num_locker_rooms : ℤ
  cleaning_frequency : String
  day_porter_needed : String
  trash_pickup : String
  restocking_needed : String
  hand_soap : String
  paper_towels : String
  toilet_paper : String
  pricing_mode : String
  monthly_fixed_price : ℚ
  rate_per_sqft : ℚ
  rate_per_visit : ℚ
  visits_per_week : ℚ
  visits_per_month : ℤ
  deep_clean_option : String
  deep_clean_price : ℚ
  deep_clean_includes : List String
  additional_services : List (String × ℚ)
  include_addons_in_total : String
  compensation_mode : String
  compensation_override : ℚ
  cleaning_plan : String
  include_cover_page : Bool
  cover_letter_body : String
  notes : String

/-- Python `round` (banker's rounding, round-half-to-even) on an exact
rational, as used by `compute_visits_per_month` and float formatting. -/
def roundHalfEven (q : ℚ) : ℤ :=
  let f : ℤ := ⌊q⌋
  let r : ℚ := q - f
  if r < 1/2 then f
  else if 1/2 < r then f + 1
  else if f % 2 = 0 then f else f + 1

/-- `compute_visits_per_month(visits_per_week) = int(round(visits_per_week * (52.0/12.0)))`. -/
def compute_visits_per_month (visits_per_week : ℚ) : ℤ :=
  roundHalfEven (visits_per_week * (52 / 12))

/-- Decimal digit string of a natural number with `,` inserted every three
digits from the right (Python's `,` format grouping); helper working on the
reversed digit list. -/
def revChunk3 : List Char → List (List Char)
  | [] => []
  | a :: b :: c :: rest => [a, b, c] :: revChunk3 rest
  | l => [l]

/-- Comma-group the decimal digits of a natural number: `1234 ↦ "1,234"`. -/
def groupDigits (n : ℕ) : String :=
  let ds := (toString n).toList
  String.mk (List.intercalate [','] (((revChunk3 ds.reverse).map List.reverse).reverse))

/-- Two-digit zero-padded cents: `5 ↦ "05"`. -/
def twoDigitFrac (c : ℕ) : String :=
  (if c < 10 then "0" else "") ++ toString c

/-- The unsigned part of Python's `,.2f` formatting of a non-negative
magnitude: grouped integer part, a dot, two cent digits (half-to-even at
the cent boundary). -/
def fmtGrouped2 (a : ℚ) : String :=
  let cents : ℕ := (roundHalfEven (a * 100)).toNat
  groupDigits (cents / 100) ++ "." ++ twoDigitFrac (cents % 100)

/-- Embedding of `money(x) = f"${x:,.2f}"`: a dollar sign followed by
Python's fixed-2 comma-grouped rendering of `x` (sign first, from the sign
of `x`, then magnitude digits). -/
def money (x : ℚ) : String :=
  let cents : ℕ := (roundHalfEven (|x| * 100)).toNat
  "$" ++ (if x < 0 then "-" else "")
      ++ groupDigits (cents / 100) ++ "." ++ twoDigitFrac (cents % 100)

/-- The numeric fields of the dict returned by `build_totals` (the
presentational `*_explain` / `addons_lines` strings are omitted). -/
structure Totals where
  base_monthly : ℚ
  addons_total : ℚ
  include_addons : Bool
  addons_included_monthly : ℚ
  deep_clean_one_time : ℚ
  deep_clean_quarterly : ℚ
  deep_clean_monthly_equiv : ℚ
  monthly_subtotal : ℚ
  monthly_tax : ℚ
  monthly_total_with_tax : ℚ
  compensation_monthly : ℚ

/-- Embedding of Python's `str.strip()`: remove leading and trailing
whitespace characters. -/
def pyStrip (s : String) : String :=
  String.mk (((s.toList.dropWhile Char.isWhitespace).reverse.dropWhile
      Char.isWhitespace).reverse)

/-- The add-on accumulation loop of `build_totals`: starting from `0.0`,
add `price` for each entry whose stripped name is non-empty and whose
price is `> 0`. -/
def addonsLoop (items : List (String × ℚ)) : ℚ :=
  items.foldl
    (fun acc it => if pyStrip it.1 ≠ "" ∧ 0 < it.2 then acc + it.2 else acc) 0

/-- Embedding of `build_totals` (lines 129-192 of the source). -/
def build_totals (p : ProposalInputs) : Totals :=
  let base_monthly : ℚ :=
    if p.pricing_mode = "Monthly Fixed" then p.monthly_fixed_price
    else if p.pricing_mode = "Per Sq Ft" then p.rate_per_sqft * (p.square_footage : ℚ)
    else p.rate_per_visit * (p.visits_per_month : ℚ)
  let addons_total : ℚ := addonsLoop p.additional_services
  let include_addons : Bool := p.include_addons_in_total = "Yes"
  let addons_included_monthly : ℚ := if include_addons then addons_total else 0
  let deep_clean_one_time : ℚ :=
    if p.deep_clean_option = "One-time" then p.deep_clean_price else 0
  let deep_clean_quarterly : ℚ :=
    if p.deep_clean_option = "One-time" then 0
    else if p.deep_clean_option = "Quarterly" then p.deep_clean_price else 0
  let deep_clean_monthly_equiv : ℚ :=
    if p.deep_clean_option = "One-time" then 0
    else if p.deep_clean_option = "Quarterly" then deep_clean_quarterly / 3 else 0
  let monthly_subtotal : ℚ := base_monthly + addons_included_monthly + deep_clean_monthly_equiv
  let tax_rate : ℚ := max 0 p.sales_tax_percent / 100
  let monthly_tax : ℚ := monthly_subtotal * tax_rate
  let monthly_total_with_tax : ℚ := monthly_subtotal + monthly_tax
  let compensation_monthly : ℚ :=
    if p.compensation_mode = "Override" then p.compensation_override
    else monthly_total_with_tax
  { base_monthly := base_monthly
    addons_total := addons_total
    include_addons := include_addons
    addons_included_monthly := addons_included_monthly
    deep_clean_one_time := deep_clean_one_time
    deep_clean_quarterly := deep_clean_quarterly
    deep_clean_monthly_equiv := deep_clean_monthly_equiv
    monthly_subtotal := monthly_subtotal
    monthly_tax := monthly_tax
    monthly_total_with_tax := monthly_total_with_tax
    compensation_monthly := compensation_monthly }

/-- Embedding of `_has_keyword(text, keywords)`: lowercase the text and
check whether any lowercased keyword occurs in it as a contiguous
substring. -/
def hasKeyword (text : String) (keywords : List String) : Bool :=
  keywords.any (fun k => decide ((k.toLower).toList <:+: (text.toLower).toList))

/-- Embedding of `compute_cleaning_schedule` (lines 198-245 of the source):
rows are `(task, daily, weekly, monthly)` cell tuples, each cell either
`CHECK` or the empty string; the imperative `rows.append` sequence becomes
list concatenation with conditional singleton segments. -/
def compute_cleaning_schedule (p : ProposalInputs) : List (String × String × String × String) :=
  let d : ℤ := p.days_per_week
  let has_carpet := hasKeyword p.floor_types ["carpet"]
  let has_vct := hasKeyword p.floor_types ["vct", "vinyl"]
  let has_epoxy := hasKeyword p.floor_types ["epoxy"]
  let has_tile := hasKeyword p.floor_types ["tile"]
  let hard_floors := has_vct || has_epoxy || has_tile || hasKeyword p.floor_types ["hard", "concrete"]
  [("Empty trash & replace liners",
      if 3 ≤ d then CHECK else "", if d = 1 ∨ d = 2 then CHECK else "", ""),
   ("Clean/disinfect high-touch points (handles, switches, rails)",
      if 3 ≤ d then CHECK else "", if d = 1 ∨ d = 2 then CHECK else "", "")]
  ++ (if 0 < p.num_bathrooms then
        [("Clean & disinfect restrooms; restock as applicable",
            if 3 ≤ d then CHECK else "", if d = 1 ∨ d = 2 then CHECK else "", "")]
      else [])
  ++ (if 0 < p.num_break_rooms ∨ 0 < p.num_kitchens then
        [("Break rooms/kitchens: counters, sinks, exterior appliances",
            if 5 ≤ d then CHECK else "",
            if d = 1 ∨ d = 2 ∨ d = 3 ∨ d = 4 then CHECK else "", "")]
      else [])
  ++ [("Dust horizontal surfaces (accessible)",
        if 5 ≤ d then CHECK else "",
        if d = 1 ∨ d = 2 ∨ d = 3 ∨ d = 4 then CHECK else "", ""),
      ("Spot clean glass & mirrors (interior)",
        if 5 ≤ d then CHECK else "",
        if d = 1 ∨ d = 2 ∨ d = 3 ∨ d = 4 then CHECK else "", "")]
  ++ (if has_carpet then
        [("Vacuum carpeted areas (as applicable)",
            if 3 ≤ d then CHECK else "", if d = 1 ∨ d = 2 then CHECK else "", ""),
         ("Spot treat carpet stains (as needed)",
            if 5 ≤ d then CHECK else "",
            if d = 1 ∨ d = 2 ∨ d = 3 ∨ d = 4 then CHECK else "", ""),
         ("Carpet extraction / shampoo (as scheduled)", "", "", CHECK)]
      else [])
  ++ (if hard_floors then
        [("Damp mop hard floors (as applicable)",
            if 5 ≤ d then CHECK else "",
            if d = 1 ∨ d = 2 ∨ d = 3 ∨ d = 4 then CHECK else "", ""),
         ("Detail floor scrubbing / machine scrub",
            "", if 3 ≤ d then CHECK else "", CHECK)]
      else [])
  ++ [("High dusting (vents, ledges, corners)", "", "", CHECK),
      ("Baseboards / detail edges (as applicable)", "", "", CHECK)]
  ++ (if has_vct then
        [("VCT maintenance (buff/burnish if applicable)", "", "", CHECK),
         ("Strip & wax (as quoted/needed)", "", "", CHECK)]
      else [])
  ++ (if 0 < p.num_locker_rooms then
        [("Locker rooms: clean/disinfect & mop",
            if 3 ≤ d then CHECK else "", if d = 1 ∨ d = 2 then CHECK else "", "")]
      else [])
  ++ (if p.day_porter_needed = "Yes" then
        [("Day porter tasks (restroom checks, spills, touch-ups)", CHECK, "", "")]
      else [])
  ++ (if p.deep_clean_option ≠ "None" then
        [("Deep clean tasks (per agreement)", "", "", CHECK)]
      else [])

/-- A direct translation of the source's default form state, used as the
concrete configuration in witnesses. -/
def sampleP : ProposalInputs :=
  { client := ""
    facility_name := ""
    service_begin_date := ""
    service_end_date := ""
    service_addresses := [""]
    days_per_week := 5
    cleaning_times := ""
    net_terms := 30
    sales_tax_percent := 7
    space_type := "Office"
    square_footage := 1000
    floor_types := ""
    num_offices := 0
    num_conference_rooms := 0
    num_break_rooms := 0
    num_bathrooms := 0
    num_kitchens := 0
    num_locker_rooms := 0
    cleaning_frequency := "5x/week"
    day_porter_needed := "No"
    trash_pickup := "daily"
    restocking_needed := "No"
    hand_soap := "Provided by Contractor"
    paper_towels := "Provided by Contractor"
    toilet_paper := "Provided by Contractor"
    pricing_mode := "Monthly Fixed"
    monthly_fixed_price := 2000
    rate_per_sqft := 1/10
    rate_per_visit := 150
    visits_per_week := 5
    visits_per_month := 22
    deep_clean_option := "None"
    deep_clean_price := 0
    deep_clean_includes := []
    additional_services := [("", 0)]
    include_addons_in_total := "Yes"
    compensation_mode := "Auto (calculated)"
    compensation_override := 0
    cleaning_plan := ""
    include_cover_page := false
    cover_letter_body := ""
    notes := "" }

/-- Replace only the `sales_tax_percent` field of a configuration. -/
def withTax (p : ProposalInputs) (t : ℚ) : ProposalInputs :=
  { p with sales_tax_percent := t }

/-- Append one additional-service entry to a configuration. -/
def addService (p : ProposalInputs) (name : String) (price : ℚ) : ProposalInputs :=
  { p with additional_services := p.additional_services ++ [(name, price)] }

/-- The add-on accumulation loop computes the sum of the prices of exactly
the entries passing the non-blank-name, positive-price filter. -/
lemma addonsLoop_eq_sum (items : List (String × ℚ)) :
    addonsLoop items
      = ((items.filter (fun it => decide (pyStrip it.1 ≠ "" ∧ 0 < it.2))).map Prod.snd).sum := by
  have key : ∀ (l : List (String × ℚ)) (a : ℚ),
      l.foldl (fun acc it => if pyStrip it.1 ≠ "" ∧ 0 < it.2 then acc + it.2 else acc) a
        = a + ((l.filter (fun it => decide (pyStrip it.1 ≠ "" ∧ 0 < it.2))).map Prod.snd).sum := by
    intro l
    induction l with
    | nil => intro a; simp
    | cons x xs ih =>
      intro a
      by_cases hx : pyStrip x.1 ≠ "" ∧ 0 < x.2
      · simp [List.filter_cons, hx, ih]
        ring
      · simp [List.filter_cons, hx, ih]
  simpa [addonsLoop] using key items 0

/-- C1: `build_totals` picks `base_monthly` by `pricing_mode`:
`Monthly Fixed` copies `monthly_fixed_price`; `Per Sq Ft` multiplies
`rate_per_sqft` by `square_footage`; `Per Visit` multiplies
`rate_per_visit` by `visits_per_month`, hence gives `0` when
`visits_per_month = 0`. -/
theorem base_monthly_by_mode (p : ProposalInputs) :
    (p.pricing_mode = "Monthly Fixed" →
        (build_totals p).base_monthly = p.monthly_fixed_price) ∧
    (p.pricing_mode = "Per Sq Ft" →
        (build_totals p).base_monthly = p.rate_per_sqft * (p.square_footage : ℚ)) ∧
    (p.pricing_mode = "Per Visit" →
        (build_totals p).base_monthly = p.rate_per_visit * (p.visits_per_month : ℚ) ∧
        (p.visits_per_month = 0 → (build_totals p).base_monthly = 0)) := by
  refine ⟨fun h => ?_, fun h => ?_, fun h => ⟨?_, fun h0 => ?_⟩⟩
  · simp [build_totals, h]
  · simp [build_totals, h]
  · simp [build_totals, h]
  · simp [build_totals, h, h0]

/-- Witness for C1 at concrete configurations in each pricing mode. -/
theorem base_monthly_by_mode_witness :
    (build_totals sampleP).base_monthly = sampleP.monthly_fixed_price ∧
    (build_totals { sampleP with pricing_mode := "Per Sq Ft" }).base_monthly
      = (1/10 : ℚ) * 1000 ∧
    (build_totals { sampleP with pricing_mode := "Per Visit" }).base_monthly
      = (150 : ℚ) * 22 :=
  ⟨(base_monthly_by_mode sampleP).1 rfl,
   (base_monthly_by_mode { sampleP with pricing_mode := "Per Sq Ft" }).2.1 rfl,
   ((base_monthly_by_mode { sampleP with pricing_mode := "Per Visit" }).2.2 rfl).1⟩

/-- C2: the two composition invariants of the totals record:
`monthly_subtotal = base_monthly + addons_included_monthly +
deep_clean_monthly_equiv` and `monthly_total_with_tax = monthly_subtotal +
monthly_tax`. -/
theorem totals_composition (p : ProposalInputs) :
    (build_totals p).monthly_subtotal
        = (build_totals p).base_monthly + (build_totals p).addons_included_monthly
            + (build_totals p).deep_clean_monthly_equiv ∧
    (build_totals p).monthly_total_with_tax
        = (build_totals p).monthly_subtotal + (build_totals p).monthly_tax := by
  constructor <;> simp [build_totals]

/-- Witness for C2 at the sample configuration. -/
theorem totals_composition_witness :
    (build_totals sampleP).monthly_subtotal
        = (build_totals sampleP).base_monthly
            + (build_totals sampleP).addons_included_monthly
            + (build_totals sampleP).deep_clean_monthly_equiv ∧
    (build_totals sampleP).monthly_total_with_tax
        = (build_totals sampleP).monthly_subtotal + (build_totals sampleP).monthly_tax :=
  totals_composition sampleP

/-- C3: deep-clean handling by `deep_clean_option`: `One-time` bills the
price separately (zero monthly contribution), `Quarterly` amortizes it at
one third per month, `None` zeroes all three fields; in particular
`Quarterly` at price 300 gives a 100 monthly equivalent. -/
theorem deep_clean_by_option (p : ProposalInputs) :
    (p.deep_clean_option = "One-time" →
        (build_totals p).deep_clean_one_time = p.deep_clean_price ∧
        (build_totals p).deep_clean_quarterly = 0 ∧
        (build_totals p).deep_clean_monthly_equiv = 0 ∧
        (build_totals p).monthly_subtotal
          = (build_totals p).base_monthly + (build_totals p).addons_included_monthly) ∧
    (p.deep_clean_option = "Quarterly" →
        (build_totals p).deep_clean_quarterly = p.deep_clean_price ∧
        (build_totals p).deep_clean_monthly_equiv = p.deep_clean_price / 3 ∧
        (build_totals p).deep_clean_one_time = 0) ∧
    (p.deep_clean_option = "None" →
        (build_totals p).deep_clean_one_time = 0 ∧
        (build_totals p).deep_clean_quarterly = 0 ∧
        (build_totals p).deep_clean_monthly_equiv = 0) ∧
    (p.deep_clean_option = "Quarterly" → p.deep_clean_price = 300 →
        (build_totals p).deep_clean_monthly_equiv = 100 ∧
        (build_totals p).deep_clean_quarterly = 300 ∧
        (build_totals p).deep_clean_one_time = 0) := by
  refine ⟨fun h => ?_, fun h => ?_, fun h => ?_, fun h hp => ?_⟩
  · simp [build_totals, h]
  · simp [build_totals, h]
  · simp [build_totals, h]
  · simp [build_totals, h, hp]
    norm_num

/-- Witness for C3 at concrete configurations in each deep-clean option. -/
theorem deep_clean_by_option_witness :
    (build_totals { sampleP with deep_clean_option := "One-time", deep_clean_price := 250 }).deep_clean_one_time = 250 ∧
    (build_totals { sampleP with deep_clean_option := "Quarterly", deep_clean_price := 300 }).deep_clean_monthly_equiv = 100 ∧
    (build_totals sampleP).deep_clean_one_time = 0 :=
  ⟨((deep_clean_by_option { sampleP with deep_clean_option := "One-time", deep_clean_price := 250 }).1 rfl).1,
   (((deep_clean_by_option { sampleP with deep_clean_option := "Quarterly", deep_clean_price := 300 }).2.2.2 rfl) rfl).1,
   ((deep_clean_by_option sampleP).2.2.1 rfl).1⟩

/-- C4: `monthly_tax = monthly_subtotal * max 0 sales_tax_percent / 100`;
the clamp happens only at the tax computation (the stored field keeps its
negative value, and the subtotal ignores the field entirely), so a config
with `sales_tax_percent = -5` yields the same `monthly_tax` and
`monthly_total_with_tax` as the same config with `0`. -/
theorem monthly_tax_clamped (p : ProposalInputs) :
    (build_totals p).monthly_tax
        = (build_totals p).monthly_subtotal * max 0 p.sales_tax_percent / 100 ∧
    (∀ t : ℚ, (build_totals (withTax p t)).monthly_subtotal
        = (build_totals p).monthly_subtotal) ∧
    (withTax p (-5)).sales_tax_percent = -5 ∧
    (build_totals (withTax p (-5))).monthly_tax
        = (build_totals (withTax p 0)).monthly_tax ∧
    (build_totals (withTax p (-5))).monthly_total_with_tax
        = (build_totals (withTax p 0)).monthly_total_with_tax := by
  refine ⟨?_, fun t => ?_, rfl, ?_, ?_⟩ <;>
    simp [build_totals, withTax, mul_div_assoc]

/-- Witness for C4: on the sample configuration, `-5` percent and `0`
percent tax produce the same monthly tax. -/
theorem monthly_tax_clamped_witness :
    (build_totals (withTax sampleP (-5))).monthly_tax
        = (build_totals (withTax sampleP 0)).monthly_tax :=
  (monthly_tax_clamped sampleP).2.2.2.1

/-- C6: `compensation_monthly` is `compensation_override` whenever
`compensation_mode = Override` (whatever every other field and total is),
and is `monthly_total_with_tax` in `Auto (calculated)` mode; at override
value 500 it is 500. -/
theorem compensation_by_mode (p : ProposalInputs) :
    (p.compensation_mode = "Override" →
        (build_totals p).compensation_monthly = p.compensation_override) ∧
    (p.compensation_mode = "Auto (calculated)" →
        (build_totals p).compensation_monthly = (build_totals p).monthly_total_with_tax) ∧
    (p.compensation_mode = "Override" → p.compensation_override = 500 →
        (build_totals p).compensation_monthly = 500) := by
  refine ⟨fun h => ?_, fun h => ?_, fun h h5 => ?_⟩
  · simp [build_totals, h]
  · simp [build_totals, h]
  · simp [build_totals, h, h5]

/-- Witness for C6: override mode at 500 on an otherwise arbitrary sample
config, and auto mode on the sample config. -/
theorem compensation_by_mode_witness :
    (build_totals { sampleP with compensation_mode := "Override", compensation_override := 500 }).compensation_monthly = 500 ∧
    (build_totals sampleP).compensation_monthly = (build_totals sampleP).monthly_total_with_tax :=
  ⟨((compensation_by_mode { sampleP with compensation_mode := "Override", compensation_override := 500 }).2.2 rfl) rfl,
   (compensation_by_mode sampleP).2.1 rfl⟩

/-- C5: `addons_total` is the sum of the prices of exactly the
`additional_services` entries with a non-blank trimmed name and a strictly
positive price; appending an entry with a blank name or a zero price never
changes it; and `addons_included_monthly` copies it when
`include_addons_in_total = "Yes"` and is `0` otherwise. -/
theorem addons_filter (p : ProposalInputs) :
    (build_totals p).addons_total
        = ((p.additional_services.filter
            (fun it => decide (pyStrip it.1 ≠ "" ∧ 0 < it.2))).map Prod.snd).sum ∧
    (build_totals p).addons_included_monthly
        = (if p.include_addons_in_total = "Yes" then (build_totals p).addons_total else 0) ∧
    (∀ name : String, ∀ price : ℚ, pyStrip name = "" ∨ price = 0 →
        (build_totals (addService p name price)).addons_total
          = (build_totals p).addons_total) := by
  refine ⟨?_, ?_, fun name price hblank => ?_⟩
  · simpa [build_totals] using addonsLoop_eq_sum p.additional_services
  · simp [build_totals]
  · have hcond : ¬ (pyStrip name ≠ "" ∧ 0 < price) := by
      rcases hblank with hb | hb
      · exact fun hc => hc.1 hb
      · exact fun hc => by simp [hb] at hc
    simp [build_totals, addService, addonsLoop, List.foldl_append, hcond]

/-- Witness for C5: appending a blank-named entry and a zero-priced entry
to the sample configuration leaves `addons_total` unchanged. -/
theorem addons_filter_witness :
    (build_totals (addService sampleP "   " 25)).addons_total
        = (build_totals sampleP).addons_total ∧
    (build_totals (addService sampleP "Window washing" 0)).addons_total
        = (build_totals sampleP).addons_total :=
  ⟨(addons_filter sampleP).2.2 "   " 25 (Or.inl (by decide)),
   (addons_filter sampleP).2.2 "Window washing" 0 (Or.inr rfl)⟩

/-- Python's banker's round never lands farther than one half from its
argument. -/
lemma abs_sub_roundHalfEven (q : ℚ) : |q - roundHalfEven q| ≤ 1/2 := by
  have h0 : (⌊q⌋ : ℚ) ≤ q := Int.floor_le q
  have h1 : q < ⌊q⌋ + 1 := Int.lt_floor_add_one q
  simp only [roundHalfEven]
  split_ifs with hlt hgt hev <;>
    · rw [abs_le]
      push_cast
      constructor <;> linarith

/-- C7: `compute_visits_per_month` is the round-half-to-even rounding of
`visits_per_week * 52 / 12` — in particular an integer within one half of
it (a standard rounding, ties free to go either way) — and it maps `0` to
`0` and `5` to `22`. -/
theorem visits_per_month_round (v : ℚ) (_hv : 0 ≤ v) :
    compute_visits_per_month v = roundHalfEven (v * (52 / 12)) ∧
    |v * 52 / 12 - (compute_visits_per_month v : ℚ)| ≤ 1/2 ∧
    compute_visits_per_month 0 = 0 ∧
    compute_visits_per_month 5 = 22 := by
  refine ⟨rfl, ?_, by norm_num [compute_visits_per_month, roundHalfEven],
    by norm_num [compute_visits_per_month, roundHalfEven]⟩
  have := abs_sub_roundHalfEven (v * (52 / 12))
  simpa [compute_visits_per_month, mul_div_assoc] using this

/-- Witness for C7 at `visits_per_week = 5`. -/
theorem visits_per_month_round_witness :
    compute_visits_per_month 5 = roundHalfEven (5 * (52 / 12)) ∧
    |(5 : ℚ) * 52 / 12 - (compute_visits_per_month 5 : ℚ)| ≤ 1/2 ∧
    compute_visits_per_month 0 = 0 ∧
    compute_visits_per_month 5 = 22 :=
  visits_per_month_round 5 (by norm_num)

/-- Universal statements over a conditionally emitted segment reduce to an
implication from the segment's condition. -/
lemma forall_mem_ite_nil_iff {α : Type} {c : Prop} [Decidable c] {l : List α}
    {P : α → Prop} :
    (∀ x ∈ (if c then l else []), P x) ↔ (c → ∀ x ∈ l, P x) := by
  split_ifs with hc <;> simp [hc]

/-- `countP` over a conditionally emitted segment. -/
lemma countP_ite_nil {α : Type} (f : α → Bool) (c : Prop) [Decidable c]
    (l : List α) :
    List.countP f (if c then l else []) = if c then List.countP f l else 0 := by
  split_ifs <;> simp

/-- A profile with no service days but a day porter: the source still emits
the day-porter row with its daily column checked. -/
def profC8 : ProposalInputs :=
  { sampleP with days_per_week := 0, day_porter_needed := "Yes" }

/-- C8 counterexample: with `days_per_week = 0` and `day_porter_needed =
"Yes"`, it is not true that no row has a daily or weekly mark — the
day-porter row is marked daily. -/
theorem schedule_day0_counterexample :
    ¬ (∀ r ∈ compute_cleaning_schedule profC8, r.2.1 ≠ CHECK ∧ r.2.2.1 ≠ CHECK) := by
  intro h
  have hmem : ("Day porter tasks (restroom checks, spills, touch-ups)", CHECK, "", "")
      ∈ compute_cleaning_schedule profC8 := by
    simp [compute_cleaning_schedule, profC8, sampleP, CHECK]
  exact (h _ hmem).1 rfl

/-- C8 (amended): with `days_per_week = 0`, no row has its weekly column
marked, and no row other than the day-porter row (emitted only when
`day_porter_needed = "Yes"` and always marked daily) has its daily column
marked; in particular when `day_porter_needed ≠ "Yes"`, no row has a daily
or weekly mark at all. -/
theorem schedule_day0 (p : ProposalInputs) (hd : p.days_per_week = 0) :
    (∀ r ∈ compute_cleaning_schedule p, r.2.2.1 = "") ∧
    (∀ r ∈ compute_cleaning_schedule p,
        r.2.1 = "" ∨ r.1 = "Day porter tasks (restroom checks, spills, touch-ups)") ∧
    (p.day_porter_needed ≠ "Yes" →
        ∀ r ∈ compute_cleaning_schedule p, r.2.1 = "" ∧ r.2.2.1 = "") := by
  refine ⟨?_, ?_, fun hp => ?_⟩
  · simp [compute_cleaning_schedule, hd, forall_mem_ite_nil_iff, CHECK]
    tauto
  · simp [compute_cleaning_schedule, hd, forall_mem_ite_nil_iff, CHECK]
    tauto
  · simp [compute_cleaning_schedule, hd, hp, forall_mem_ite_nil_iff, CHECK]
    tauto

/-- Witness for C8 (amended) at a concrete zero-day profile and the
always-emitted high-dusting row. -/
theorem schedule_day0_witness :
    (("High dusting (vents, ledges, corners)", "", "", CHECK)
        : String × String × String × String).2.2.1 = "" :=
  (schedule_day0 { sampleP with days_per_week := 0 } rfl).1 _
    (by simp [compute_cleaning_schedule, sampleP])

/-- Recognizer for the restroom-cleaning schedule row. -/
def isRestroomRow (r : String × String × String × String) : Bool :=
  r.1 == "Clean & disinfect restrooms; restock as applicable"

/-- C9: the schedule contains the restroom-cleaning row exactly when
`num_bathrooms > 0`, and then exactly once; with zero bathrooms there is
none and with three bathrooms exactly one. -/
theorem restroom_row_count (p : ProposalInputs) :
    ((compute_cleaning_schedule p).countP isRestroomRow
        = if 0 < p.num_bathrooms then 1 else 0) ∧
    (p.num_bathrooms = 0 → (compute_cleaning_schedule p).countP isRestroomRow = 0) ∧
    (p.num_bathrooms = 3 → (compute_cleaning_schedule p).countP isRestroomRow = 1) := by
  have base : (compute_cleaning_schedule p).countP isRestroomRow
      = if 0 < p.num_bathrooms then 1 else 0 := by
    simp [compute_cleaning_schedule, isRestroomRow, List.countP_append,
      countP_ite_nil, List.countP_cons]
  refine ⟨base, fun h0 => ?_, fun h3 => ?_⟩
  · simp [base, h0]
  · simp [base, h3]

/-- Witness for C9 at three bathrooms and at zero bathrooms. -/
theorem restroom_row_count_witness :
    (compute_cleaning_schedule { sampleP with num_bathrooms := 3 }).countP
        isRestroomRow = 1 ∧
    (compute_cleaning_schedule sampleP).countP isRestroomRow = 0 :=
  ⟨(restroom_row_count { sampleP with num_bathrooms := 3 }).2.2 rfl,
   (restroom_row_count sampleP).2.1 rfl⟩

/-- C10: `money` writes the dollar sign first and the sign of the amount
second: a negative amount renders as `"$-"` followed by the grouped
two-decimal magnitude, a non-negative amount as `"$"` followed by it; at
`-1234.5` the output is exactly `"$-1,234.50"` (not `"-$1,234.50"`), and at
`1234.5` it is `"$1,234.50"`. -/
theorem money_sign_placement (x : ℚ) :
    (x < 0 → money x = "$" ++ "-" ++ fmtGrouped2 |x|) ∧
    (0 ≤ x → money x = "$" ++ fmtGrouped2 |x|) ∧
    money (-1234.5) = "$-1,234.50" ∧
    money 1234.5 = "$1,234.50" ∧
    money (-1234.5) ≠ "-$1,234.50" := by
  have habs : |(-1234.5 : ℚ)| = 1234.5 := by norm_num
  have habs2 : |(1234.5 : ℚ)| = 1234.5 := by norm_num
  have hr : roundHalfEven ((1234.5 : ℚ) * 100) = 123450 := by
    norm_num [roundHalfEven]
  have hneg : money (-1234.5) = "$-1,234.50" := by
    simp only [money, habs, hr]
    rw [if_pos (by norm_num : (-1234.5 : ℚ) < 0)]
    decide
  have hposc : money 1234.5 = "$1,234.50" := by
    simp only [money, habs2, hr]
    rw [if_neg (by norm_num : ¬ (1234.5 : ℚ) < 0)]
    decide
  refine ⟨fun hx => ?_, fun hx => ?_, hneg, hposc, ?_⟩
  · simp [money, fmtGrouped2, hx, String.append_assoc]
  · simp [money, fmtGrouped2, not_lt.mpr hx, String.append_assoc]
  · rw [hneg]
    decide

/-- Witness for C10 at the negative input `-1234.5` and the non-negative
input `1234.5`. -/
theorem money_sign_placement_witness :
    money (-1234.5) = "$" ++ "-" ++ fmtGrouped2 |(-1234.5 : ℚ)| ∧
    money 1234.5 = "$" ++ fmtGrouped2 |(1234.5 : ℚ)| :=
  ⟨(money_sign_placement (-1234.5)).1 (by norm_num),
   (money_sign_placement 1234.5).2.1 (by norm_num)⟩

end Torus
